import Mathlib

/-!
Verification of the NI3S frontend (district analytics and risk scoring UI)
against its specification.  The definitions below are shallow embeddings of
the TypeScript sources: the API client in frontend/src/services/api.ts and
the React pages (NationalOverview, RiskHeatmap, StateDistrictExplorer).
Numbers are modelled as rationals, JS stable Array.sort as insertion sort,
and the asynchronous fetch loop as a recursion over an oracle of attempt
outcomes.  Definitions whose doc comment begins with Modelled from the spec
embed backend behaviour that is not part of the sources.
-/

/-! ### Risk categories and their colors (RiskGauge, HeatmapGrid, legend) -/

/-- The three risk categories of the category mapping. -/
inductive RiskCategory where
  | low
  | medium
  | high
deriving DecidableEq

/-- Colors used by the gauge and heatmap components. -/
inductive Color where
  | green
  | yellow
  | red
deriving DecidableEq

/-- RiskGauge.getColor: score below 0.3 is green, below 0.6 yellow, else red. -/
def riskGaugeColor (score : ℚ) : Color :=
  if score < 3/10 then Color.green
  else if score < 6/10 then Color.yellow
  else Color.red

/-- RiskGauge.getBarColor: same thresholds as getColor, for the bar fill. -/
def riskGaugeBarColor (score : ℚ) : Color :=
  if score < 3/10 then Color.green
  else if score < 6/10 then Color.yellow
  else Color.red

/-- HeatmapGrid.getRiskColor: maps the category label to a tile color. -/
def getRiskColor (category : String) : Color :=
  if category = "High Risk" then Color.red
  else if category = "Medium Risk" then Color.yellow
  else Color.green

/-- Category labels as emitted by the backend and matched by the frontend. -/
def categoryName : RiskCategory → String
  | RiskCategory.low => "Low Risk"
  | RiskCategory.medium => "Medium Risk"
  | RiskCategory.high => "High Risk"

/-- The color conventionally associated with each category (legend of the
heatmap page: green for low, yellow for medium, red for high). -/
def categoryColor : RiskCategory → Color
  | RiskCategory.low => Color.green
  | RiskCategory.medium => Color.yellow
  | RiskCategory.high => Color.red

/-- Modelled from the spec: the RiskScorer category mapping, which is not part
of the sources (the backend scoring engine is external to this repository).
Spec 4.2: scores in [0, 0.3) are Low, [0.3, 0.6) Medium, [0.6, 1.0] High. -/
def riskCategoryOf (s : ℚ) : RiskCategory :=
  if s < 3/10 then RiskCategory.low
  else if s < 6/10 then RiskCategory.medium
  else RiskCategory.high

/-- The interval condition the spec attaches to each category (transcribed
from the spec for comparison with the code): half-open intervals with
inclusive-low boundaries over [0, 1]. -/
def categoryCond : RiskCategory → ℚ → Prop
  | RiskCategory.low, s => 0 ≤ s ∧ s < 3/10
  | RiskCategory.medium, s => 3/10 ≤ s ∧ s < 6/10
  | RiskCategory.high, s => 6/10 ≤ s ∧ s ≤ 1

/-! ### Composite weights (RiskBreakdown display, scorer weights) -/

/-- Modelled from the spec: the five RiskScorer component weights of the
composite score (spec 4.2); the scoring engine is not part of the sources.
Order: penetration, growth, youth, volatility, stagnation. -/
def scorerWeights : List ℚ := [35/100, 25/100, 20/100, 10/100, 10/100]

/-- RiskBreakdown items list: the label of each component together with the
weight percentage it displays (the numeric part of the weight strings). -/
def riskBreakdownItems : List (String × ℚ) :=
  [("Penetration Risk", 35),
   ("Growth Risk", 25),
   ("Youth Risk", 20),
   ("Volatility Risk", 10),
   ("Stagnation Risk", 10)]

/-! ### Record shapes declared by the API client -/

/-- Field names of the DistrictAnalytics interface in
frontend/src/services/api.ts, in declaration order. -/
def districtAnalyticsFieldsApi : List String :=
  ["state", "district", "total_enrollments", "total_population",
   "avg_penetration_rate", "latest_penetration_rate", "youth_inclusion_rate",
   "adult_inclusion_rate", "youth_adult_gap", "growth_slope",
   "growth_volatility", "stagnation_periods", "trends"]

/-- Field names of the DistrictAnalytics interface in the older api service
module, in declaration order. -/
def districtAnalyticsFieldsLegacy : List String :=
  ["state", "district", "total_enrollments", "total_population",
   "avg_penetration_rate", "latest_penetration_rate", "youth_inclusion_rate",
   "adult_inclusion_rate", "youth_adult_gap", "growth_slope",
   "growth_volatility", "stagnation_periods", "trends"]

/-- The field list the spec gives for DistrictAnalytics (transcribed from the
spec for comparison with the code). -/
def specDistrictAnalyticsFields : List String :=
  ["state", "district", "total_enrollments", "total_population",
   "avg_penetration_rate", "latest_penetration_rate", "youth_inclusion_rate",
   "adult_inclusion_rate", "youth_adult_gap", "growth_slope",
   "growth_volatility", "stagnation_periods"]

/-- Field names of the NationalOverview interface in
frontend/src/services/api.ts, in declaration order. -/
def nationalOverviewFieldsApi : List String :=
  ["total_enrollments", "total_population", "overall_penetration_rate",
   "youth_penetration_rate", "adult_penetration_rate", "num_states",
   "num_districts", "coverage_gap", "latest_date"]

/-- Field names of the NationalOverview interface in the older api service
module, in declaration order. -/
def nationalOverviewFieldsLegacy : List String :=
  ["total_enrollments", "total_population", "overall_penetration_rate",
   "youth_penetration_rate", "adult_penetration_rate", "num_states",
   "num_districts", "coverage_gap"]

/-- The field list the spec gives for the national rollup (transcribed from
the spec for comparison with the code). -/
def specNationalRollupFields : List String :=
  ["total_enrollments", "total_population", "overall_penetration_rate",
   "youth_penetration_rate", "adult_penetration_rate", "coverage_gap",
   "num_states", "num_districts"]

/-- The national rollup record, with the fields of the NationalOverview
shape. -/
structure NationalOverviewRec where
  total_enrollments : ℚ
  total_population : ℚ
  overall_penetration_rate : ℚ
  youth_penetration_rate : ℚ
  adult_penetration_rate : ℚ
  num_states : ℕ
  num_districts : ℕ
  coverage_gap : ℚ
deriving DecidableEq

/-- Modelled from the spec: the national rollup computation of the backend
AggregationLayer, which is not part of the sources.  Spec 6: the overall
penetration rate is enrollments divided by population and
coverage_gap equals 1 minus overall_penetration_rate. -/
def mkNationalOverview (e p yr ar : ℚ) (ns nd : ℕ) : NationalOverviewRec :=
  { total_enrollments := e
    total_population := p
    overall_penetration_rate := e / p
    youth_penetration_rate := yr
    adult_penetration_rate := ar
    num_states := ns
    num_districts := nd
    coverage_gap := 1 - e / p }

/-! ### District analytics record and the penetration-risk component -/

/-- One period of the per-district trend series (TrendData interface). -/
structure TrendData where
  date : String
  enrollments : ℚ
  population : ℚ
  penetration_rate : ℚ
deriving DecidableEq

/-- The DistrictAnalytics record as declared by the API client. -/
structure DistrictAnalytics where
  state : String
  district : String
  total_enrollments : ℚ
  total_population : ℚ
  avg_penetration_rate : ℚ
  latest_penetration_rate : ℚ
  youth_inclusion_rate : ℚ
  adult_inclusion_rate : ℚ
  youth_adult_gap : ℚ
  growth_slope : ℚ
  growth_volatility : ℚ
  stagnation_periods : ℕ
  trends : List TrendData
deriving DecidableEq

/-- Clamp a rational to the interval [0, 1]. -/
def clamp01 (x : ℚ) : ℚ := max 0 (min 1 x)

/-- Modelled from the spec: the RiskScorer penetration-risk component, which
is not part of the sources (the backend scoring engine is external to this
repository).  Spec 4.2: penetration_risk = 1 - latest_penetration_rate,
clamped to [0, 1]. -/
def penetrationRisk (a : DistrictAnalytics) : ℚ :=
  clamp01 (1 - a.latest_penetration_rate)

/-! ### Heatmap filtering (RiskHeatmap page) -/

/-- One tile of the heatmap (HeatmapItem interface). -/
structure HeatmapItem where
  state : String
  district : String
  risk_score : ℚ
  risk_category : String
  penetration_rate : ℚ
  total_population : ℚ
deriving DecidableEq

/-- The filter predicate of filteredHeatmapData: an item is dropped when a
state is selected and differs from the item, or a risk category is selected
and differs from the item.  An empty string is the empty selection (falsy in
the JS source). -/
def heatmapKeep (selectedState riskFilter : String) (item : HeatmapItem) : Bool :=
  if selectedState ≠ "" ∧ item.state ≠ selectedState then false
  else if riskFilter ≠ "" ∧ item.risk_category ≠ riskFilter then false
  else true

/-- filteredHeatmapData: the heatmap list filtered by the two selections. -/
def filteredHeatmapData (selectedState riskFilter : String)
    (l : List HeatmapItem) : List HeatmapItem :=
  l.filter (heatmapKeep selectedState riskFilter)

/-! ### State risk ranking (HighRiskStates component) -/

/-- One row of the state risk summary (state_risk_summary entries). -/
structure StateRiskSummary where
  state : String
  avg_risk_score : ℚ
  max_risk_score : ℚ
  num_districts : ℕ
deriving DecidableEq

/-- The order the JS comparator (b.avg_risk_score - a.avg_risk_score)
realizes: a comes no later than b when the score of b is at most the score
of a. -/
def scoreGe (a b : StateRiskSummary) : Prop :=
  b.avg_risk_score ≤ a.avg_risk_score

instance : DecidableRel scoreGe :=
  fun a b => inferInstanceAs (Decidable (b.avg_risk_score ≤ a.avg_risk_score))

instance : IsTotal StateRiskSummary scoreGe :=
  ⟨fun a b => (le_total b.avg_risk_score a.avg_risk_score).elim Or.inl Or.inr⟩

instance : IsTrans StateRiskSummary scoreGe :=
  ⟨fun _ _ _ hab hbc => le_trans hbc hab⟩

/-- The stable descending sort performed by HighRiskStates: JS Array.sort is
stable, so sorting a copy with the comparator on avg_risk_score is an
insertion sort under scoreGe. -/
def sortByAvgRiskDesc (l : List StateRiskSummary) : List StateRiskSummary :=
  List.insertionSort scoreGe l

/-- topRiskStates of HighRiskStates: sort descending by avg_risk_score and
keep the first ten entries. -/
def topRiskStates (l : List StateRiskSummary) : List StateRiskSummary :=
  (sortByAvgRiskDesc l).take 10

/-- The ordering the claim describes (written from the claim, for
comparison): descending score with the state name as tie-break key, the
names compared lexicographically as their character lists. -/
def claimedRank (a b : StateRiskSummary) : Prop :=
  b.avg_risk_score < a.avg_risk_score ∨
    (b.avg_risk_score = a.avg_risk_score ∧ ¬ b.state.data < a.state.data)

instance : DecidableRel claimedRank :=
  fun a b => inferInstanceAs (Decidable (b.avg_risk_score < a.avg_risk_score ∨
    (b.avg_risk_score = a.avg_risk_score ∧ ¬ b.state.data < a.state.data)))

/-- The ranking the claim describes (written from the claim, for
comparison): a descending sort on the score with the identity as tie-break
key, truncated to ten entries. -/
def claimedTopRiskStates (l : List StateRiskSummary) : List StateRiskSummary :=
  (List.insertionSort claimedRank l).take 10

/-- Two states with equal average risk, listed out of alphabetical order. -/
def summaryB : StateRiskSummary :=
  { state := "B", avg_risk_score := 5, max_risk_score := 5, num_districts := 1 }

/-- Companion row to summaryB with the same score and an earlier name. -/
def summaryA : StateRiskSummary :=
  { state := "A", avg_risk_score := 5, max_risk_score := 5, num_districts := 1 }

/-! ### The fetch loop of the API client (fetchWithRetry) -/

/-- Retry configuration of the API client. -/
def MAX_RETRIES : ℕ := 12

/-- Delay in milliseconds between attempts (not modelled further). -/
def RETRY_DELAY : ℕ := 3000

/-- What one fetch attempt can produce: an HTTP response with a status code,
or a thrown network error, which may or may not be a TypeError whose message
mentions fetch. -/
inductive FetchOutcome where
  | response (status : ℕ)
  | networkError (isFetchTypeError : Bool)
deriving DecidableEq

/-- How fetchWithRetry can end: a parsed success, the initialization-timeout
error after exhausting the budget on 503, an immediate HTTP error, or a
rethrown network failure. -/
inductive FetchResult where
  | success (status : ℕ)
  | initTimeout
  | httpError (status : ℕ)
  | networkFailure (isFetchTypeError : Bool)
deriving DecidableEq

/-- Response.ok of the fetch API: status in the range 200 to 299. -/
def isOkStatus (status : ℕ) : Bool :=
  decide (200 ≤ status) && decide (status < 300)

/-- fetchWithRetry, with the sequence of attempt outcomes supplied by an
oracle indexed by attempt number.  Returns the surfaced result together with
the number of fetch attempts performed.  A 503 response with budget left
recurses with one retry fewer; with no budget it surfaces the timeout error.
A non-ok response is surfaced at once.  A network error is retried only when
it is a fetch TypeError and budget remains. -/
def fetchWithRetry (world : ℕ → FetchOutcome) : ℕ → ℕ → FetchResult × ℕ
  | Nat.zero, attempt =>
    match world attempt with
    | FetchOutcome.response status =>
      if status = 503 then (FetchResult.initTimeout, 1)
      else if isOkStatus status then (FetchResult.success status, 1)
      else (FetchResult.httpError status, 1)
    | FetchOutcome.networkError isFetch => (FetchResult.networkFailure isFetch, 1)
  | Nat.succ r, attempt =>
    match world attempt with
    | FetchOutcome.response status =>
      if status = 503 then
        let rest := fetchWithRetry world r (attempt + 1)
        (rest.1, rest.2 + 1)
      else if isOkStatus status then (FetchResult.success status, 1)
      else (FetchResult.httpError status, 1)
    | FetchOutcome.networkError isFetch =>
      if isFetch then
        let rest := fetchWithRetry world r (attempt + 1)
        (rest.1, rest.2 + 1)
      else (FetchResult.networkFailure isFetch, 1)

/-- A world whose first attempt yields 503 and whose later attempts yield
200. -/
def world503then200 : ℕ → FetchOutcome :=
  fun n => if n = 0 then FetchOutcome.response 503 else FetchOutcome.response 200

/-- A world that always yields a 404 response. -/
def world404 : ℕ → FetchOutcome :=
  fun _ => FetchOutcome.response 404

/-! ### Guarded chart arithmetic (RiskDistributionChart, TrendsChart) -/

/-- The total of RiskDistributionChart: the distribution values, missing
counts read as zero, summed. -/
def riskTotal (dist : List (String × Option ℕ)) : ℕ :=
  (dist.map (fun p => p.2.getD 0)).sum

/-- The per-category percentage of RiskDistributionChart: a guarded division,
zero (displayed as the literal 0.0) when the total is not positive. -/
def riskPercentage (count : Option ℕ) (total : ℕ) : ℚ :=
  if 0 < total then ((count.getD 0 : ℚ) / (total : ℚ)) * 100 else 0

/-- The recent window of TrendsChart: the last twelve entries. -/
def recentTrends (trends : List TrendData) : List TrendData :=
  trends.drop (trends.length - 12)

/-- Math.max over the penetration rates of the recent window; none stands
for the JS result on an empty list, which is negative infinity. -/
def maxPenetration (trends : List TrendData) : Option ℚ :=
  ((recentTrends trends).map TrendData.penetration_rate).max?

/-- The bar width of TrendsChart: a guarded division, zero unless the
maximum penetration rate is positive. -/
def barWidth (rate : ℚ) (maxP : Option ℚ) : ℚ :=
  match maxP with
  | some m => if 0 < m then rate / m * 100 else 0
  | none => 0

/-- Example heatmap tile in state X. -/
def tileX : HeatmapItem :=
  { state := "X", district := "D1", risk_score := 1, risk_category := "High Risk",
    penetration_rate := 0, total_population := 10 }

/-- Example heatmap tile in state Y. -/
def tileY : HeatmapItem :=
  { state := "Y", district := "D2", risk_score := 0, risk_category := "Low Risk",
    penetration_rate := 1, total_population := 5 }

/-- Example analytics record used to witness the monotonicity theorem. -/
def analyticsHigh : DistrictAnalytics :=
  { state := "S", district := "D", total_enrollments := 80, total_population := 100,
    avg_penetration_rate := 7/10, latest_penetration_rate := 8/10,
    youth_inclusion_rate := 6/10, adult_inclusion_rate := 7/10,
    youth_adult_gap := -1/10, growth_slope := 1/100, growth_volatility := 1/20,
    stagnation_periods := 0, trends := [] }

/-- The same record with a smaller latest penetration rate. -/
def analyticsLow : DistrictAnalytics :=
  { analyticsHigh with latest_penetration_rate := 5/10 }

/-! ### Helper lemmas about one step of the fetch loop -/

theorem fetch_step_503 (world : ℕ → FetchOutcome) (r attempt : ℕ)
    (h : world attempt = FetchOutcome.response 503) :
    fetchWithRetry world (Nat.succ r) attempt =
      ((fetchWithRetry world r (attempt + 1)).1,
       (fetchWithRetry world r (attempt + 1)).2 + 1) := by
  simp [fetchWithRetry, h]

theorem fetch_step_503_zero (world : ℕ → FetchOutcome) (attempt : ℕ)
    (h : world attempt = FetchOutcome.response 503) :
    fetchWithRetry world 0 attempt = (FetchResult.initTimeout, 1) := by
  simp [fetchWithRetry, h]

theorem fetch_step_response_ok (world : ℕ → FetchOutcome) (retries attempt s : ℕ)
    (h : world attempt = FetchOutcome.response s) (h503 : s ≠ 503)
    (hok : isOkStatus s = true) :
    fetchWithRetry world retries attempt = (FetchResult.success s, 1) := by
  cases retries <;> simp [fetchWithRetry, h, h503, hok]

theorem fetch_step_response_err (world : ℕ → FetchOutcome) (retries attempt s : ℕ)
    (h : world attempt = FetchOutcome.response s) (h503 : s ≠ 503)
    (hok : isOkStatus s = false) :
    fetchWithRetry world retries attempt = (FetchResult.httpError s, 1) := by
  cases retries <;> simp [fetchWithRetry, h, h503, hok]

theorem fetch_step_net_true (world : ℕ → FetchOutcome) (r attempt : ℕ)
    (h : world attempt = FetchOutcome.networkError true) :
    fetchWithRetry world (Nat.succ r) attempt =
      ((fetchWithRetry world r (attempt + 1)).1,
       (fetchWithRetry world r (attempt + 1)).2 + 1) := by
  simp [fetchWithRetry, h]

theorem fetch_step_net_false (world : ℕ → FetchOutcome) (retries attempt : ℕ)
    (h : world attempt = FetchOutcome.networkError false) :
    fetchWithRetry world retries attempt = (FetchResult.networkFailure false, 1) := by
  cases retries <;> simp [fetchWithRetry, h]

theorem fetch_step_net_zero (world : ℕ → FetchOutcome) (attempt : ℕ) (b : Bool)
    (h : world attempt = FetchOutcome.networkError b) :
    fetchWithRetry world 0 attempt = (FetchResult.networkFailure b, 1) := by
  simp [fetchWithRetry, h]

/-! ### Claim theorems -/

/-- Claim C2: the risk-category mapping is a total, non-overlapping partition
of [0,1] with inclusive-low boundaries, and the category (and its color)
assigned to a score by the gauge, the modelled scorer, and the heatmap color
mapping all agree with it. -/
theorem C2_risk_category_partition :
    ∀ s : ℚ, 0 ≤ s → s ≤ 1 →
      (∃! c : RiskCategory, categoryCond c s) ∧
      categoryCond (riskCategoryOf s) s ∧
      riskGaugeColor s = categoryColor (riskCategoryOf s) ∧
      riskGaugeBarColor s = categoryColor (riskCategoryOf s) ∧
      getRiskColor (categoryName (riskCategoryOf s)) = categoryColor (riskCategoryOf s) := by
  intro s h0 h1
  by_cases h3 : s < 3/10
  · have hcat : riskCategoryOf s = RiskCategory.low := by
      simp [riskCategoryOf, h3]
    refine ⟨⟨RiskCategory.low, ⟨h0, h3⟩, ?_⟩, ?_, ?_, ?_, ?_⟩
    · intro c hc
      cases c with
      | low => rfl
      | medium => exact absurd hc.1 (not_le.mpr h3)
      | high => exact absurd hc.1 (not_le.mpr (by linarith))
    · rw [hcat]; exact ⟨h0, h3⟩
    · rw [hcat]; simp [riskGaugeColor, h3, categoryColor]
    · rw [hcat]; simp [riskGaugeBarColor, h3, categoryColor]
    · rw [hcat]; decide
  · by_cases h6 : s < 6/10
    · have hcat : riskCategoryOf s = RiskCategory.medium := by
        simp [riskCategoryOf, h3, h6]
      have h3le : 3/10 ≤ s := le_of_not_lt h3
      refine ⟨⟨RiskCategory.medium, ⟨h3le, h6⟩, ?_⟩, ?_, ?_, ?_, ?_⟩
      · intro c hc
        cases c with
        | low => exact absurd hc.2 (not_lt.mpr h3le)
        | medium => rfl
        | high => exact absurd hc.1 (not_le.mpr (by linarith))
      · rw [hcat]; exact ⟨h3le, h6⟩
      · rw [hcat]; simp [riskGaugeColor, h3, h6, categoryColor]
      · rw [hcat]; simp [riskGaugeBarColor, h3, h6, categoryColor]
      · rw [hcat]; decide
    · have hcat : riskCategoryOf s = RiskCategory.high := by
        simp [riskCategoryOf, h3, h6]
      have h6le : 6/10 ≤ s := le_of_not_lt h6
      refine ⟨⟨RiskCategory.high, ⟨h6le, h1⟩, ?_⟩, ?_, ?_, ?_, ?_⟩
      · intro c hc
        cases c with
        | low => exact absurd hc.2 (not_lt.mpr (by linarith))
        | medium => exact absurd hc.2 (not_lt.mpr h6le)
        | high => rfl
      · rw [hcat]; exact ⟨h6le, h1⟩
      · rw [hcat]; simp [riskGaugeColor, h3, h6, categoryColor]
      · rw [hcat]; simp [riskGaugeBarColor, h3, h6, categoryColor]
      · rw [hcat]; decide

/-- Witness for C2 at the concrete score 0.45. -/
theorem C2_witness :
    categoryCond (riskCategoryOf (45/100)) (45/100) ∧
    riskGaugeColor (45/100) = categoryColor (riskCategoryOf (45/100)) :=
  ⟨(C2_risk_category_partition (45/100) (by norm_num) (by norm_num)).2.1,
   (C2_risk_category_partition (45/100) (by norm_num) (by norm_num)).2.2.1⟩

/-- Claim C3: the five composite weights are 0.35, 0.25, 0.20, 0.10, 0.10,
they sum to exactly 1, and the weights displayed by the breakdown component
are the same values (as percentages). -/
theorem C3_weights :
    scorerWeights.sum = 1 ∧
    riskBreakdownItems.map (fun it => it.2 / 100) = scorerWeights ∧
    scorerWeights = [35/100, 25/100, 20/100, 10/100, 10/100] := by
  refine ⟨by norm_num [scorerWeights], ?_, rfl⟩
  norm_num [riskBreakdownItems, scorerWeights]

/-- Counterexample for C4: the DistrictAnalytics interface declares a field
trends that is not among the 12 fields the claim lists. -/
theorem C4_counterexample :
    "trends" ∈ districtAnalyticsFieldsApi ∧
    "trends" ∉ specDistrictAnalyticsFields := by decide

/-- Amended C4: DistrictAnalytics has exactly the 12 listed fields plus one
further field, trends; both declarations of the interface agree. -/
theorem C4_amended_fields :
    districtAnalyticsFieldsApi = specDistrictAnalyticsFields ++ ["trends"] ∧
    districtAnalyticsFieldsLegacy = districtAnalyticsFieldsApi := by decide

/-- Counterexample for C5: the NationalOverview interface of the API client
declares a field latest_date beyond the eight fields the claim lists. -/
theorem C5_counterexample :
    "latest_date" ∈ nationalOverviewFieldsApi ∧
    "latest_date" ∉ specNationalRollupFields := by decide

/-- Amended C5: the older interface exposes exactly the eight listed fields,
the API-client interface exposes them plus latest_date, and in the modelled
rollup coverage_gap always equals 1 minus overall_penetration_rate. -/
theorem C5_amended_fields_and_gap :
    nationalOverviewFieldsLegacy.Perm specNationalRollupFields ∧
    nationalOverviewFieldsApi.Perm (specNationalRollupFields ++ ["latest_date"]) ∧
    ∀ e p yr ar : ℚ, ∀ ns nd : ℕ,
      (mkNationalOverview e p yr ar ns nd).coverage_gap =
        1 - (mkNationalOverview e p yr ar ns nd).overall_penetration_rate := by
  refine ⟨by decide, by decide, fun e p yr ar ns nd => rfl⟩

/-- Claim C7: penetration risk is antitone in the latest penetration rate,
holding every other field fixed. -/
theorem C7_penetration_risk_antitone :
    ∀ a b : DistrictAnalytics,
      b = { a with latest_penetration_rate := b.latest_penetration_rate } →
      b.latest_penetration_rate ≤ a.latest_penetration_rate →
      penetrationRisk a ≤ penetrationRisk b := by
  intro a b _ hle
  unfold penetrationRisk clamp01
  have h : 1 - a.latest_penetration_rate ≤ 1 - b.latest_penetration_rate := by linarith
  exact max_le_max le_rfl (min_le_min le_rfl h)

/-- Witness for C7 on two concrete analytics records differing only in the
latest penetration rate. -/
theorem C7_witness :
    analyticsLow.latest_penetration_rate ≤ analyticsHigh.latest_penetration_rate ∧
    penetrationRisk analyticsHigh ≤ penetrationRisk analyticsLow :=
  ⟨by norm_num [analyticsLow, analyticsHigh],
   C7_penetration_risk_antitone analyticsHigh analyticsLow rfl
     (by norm_num [analyticsLow, analyticsHigh])⟩

/-- Claim C8: the heatmap filter is sound and conservative: every filtered
item occurs in the input and matches each nonempty selection, and the empty
selections leave the list unchanged. -/
theorem C8_heatmap_filter_sound :
    ∀ (selectedState riskFilter : String) (l : List HeatmapItem),
      (∀ item : HeatmapItem,
        item ∈ filteredHeatmapData selectedState riskFilter l →
          item ∈ l ∧ (selectedState ≠ "" → item.state = selectedState) ∧
            (riskFilter ≠ "" → item.risk_category = riskFilter)) ∧
      filteredHeatmapData "" "" l = l := by
  intro ss rf l
  constructor
  · intro item hmem
    rw [filteredHeatmapData, List.mem_filter] at hmem
    obtain ⟨hin, hkeep⟩ := hmem
    refine ⟨hin, ?_, ?_⟩
    · intro hss
      by_contra hne
      have hfalse : heatmapKeep ss rf item = false := by
        unfold heatmapKeep
        rw [if_pos ⟨hss, hne⟩]
      rw [hfalse] at hkeep
      exact Bool.false_ne_true hkeep
    · intro hrf
      by_contra hne
      have hfalse : heatmapKeep ss rf item = false := by
        unfold heatmapKeep
        by_cases h1 : ss ≠ "" ∧ item.state ≠ ss
        · rw [if_pos h1]
        · rw [if_neg h1, if_pos ⟨hrf, hne⟩]
      rw [hfalse] at hkeep
      exact Bool.false_ne_true hkeep
  · rw [filteredHeatmapData]
    apply List.filter_eq_self.mpr
    intro a _
    unfold heatmapKeep
    simp

/-- Witness for C8: filtering two concrete tiles by state X keeps exactly the
tile of state X. -/
theorem C8_witness :
    tileX ∈ [tileX, tileY] ∧ tileX.state = "X" :=
  ⟨((C8_heatmap_filter_sound "X" "" [tileX, tileY]).1 tileX (by decide)).1,
   ((C8_heatmap_filter_sound "X" "" [tileX, tileY]).1 tileX (by decide)).2.1 (by decide)⟩

/-- Claim C10: the chart percentage and bar width divide only under a
positivity guard and are zero otherwise. -/
theorem C10_guarded_division :
    (∀ (dist : List (String × Option ℕ)) (count : Option ℕ),
      (riskTotal dist = 0 → riskPercentage count (riskTotal dist) = 0) ∧
      (0 < riskTotal dist →
        ((riskTotal dist : ℚ) ≠ 0 ∧
          riskPercentage count (riskTotal dist) =
            (count.getD 0 : ℚ) / (riskTotal dist : ℚ) * 100))) ∧
    (∀ (trends : List TrendData) (rate : ℚ),
      (maxPenetration trends = none → barWidth rate (maxPenetration trends) = 0) ∧
      (∀ m : ℚ, maxPenetration trends = some m → m ≤ 0 →
        barWidth rate (maxPenetration trends) = 0) ∧
      (∀ m : ℚ, maxPenetration trends = some m → 0 < m →
        m ≠ 0 ∧ barWidth rate (maxPenetration trends) = rate / m * 100)) := by
  constructor
  · intro dist count
    constructor
    · intro h
      rw [riskPercentage, if_neg (by omega)]
    · intro h
      refine ⟨?_, ?_⟩
      · have hne : riskTotal dist ≠ 0 := by omega
        exact_mod_cast hne
      · rw [riskPercentage, if_pos h]
  · intro trends rate
    refine ⟨?_, ?_, ?_⟩
    · intro h
      rw [h]
      rfl
    · intro m hm hle
      rw [hm]
      show (if 0 < m then rate / m * 100 else 0) = 0
      rw [if_neg (not_lt.mpr hle)]
    · intro m hm hpos
      refine ⟨ne_of_gt hpos, ?_⟩
      rw [hm]
      show (if 0 < m then rate / m * 100 else 0) = rate / m * 100
      rw [if_pos hpos]

/-- Witness for C10: an all-missing distribution has total zero and
percentage zero, and an empty trends list yields bar width zero. -/
theorem C10_witness :
    riskPercentage (some 5) (riskTotal [("Low Risk", (none : Option ℕ))]) = 0 ∧
    barWidth 3 (maxPenetration []) = 0 :=
  ⟨(C10_guarded_division.1 [("Low Risk", none)] (some 5)).1 (by decide),
   (C10_guarded_division.2 [] 3).1 (by decide)⟩

/-- Claim C9: fetchWithRetry terminates with at most retries + 1 fetch
attempts for every retry budget and every sequence of outcomes. -/
theorem C9_fetch_attempt_bound :
    ∀ (world : ℕ → FetchOutcome) (retries attempt : ℕ),
      (fetchWithRetry world retries attempt).2 ≤ retries + 1 := by
  intro world retries
  induction retries with
  | zero =>
    intro attempt
    cases h : world attempt with
    | response status =>
      by_cases h503 : status = 503
      · subst h503
        rw [fetch_step_503_zero world attempt h]
      · cases hok : isOkStatus status
        · rw [fetch_step_response_err world 0 attempt status h h503 hok]
        · rw [fetch_step_response_ok world 0 attempt status h h503 hok]
    | networkError isFetch =>
      rw [fetch_step_net_zero world attempt isFetch h]
  | succ r ih =>
    intro attempt
    cases h : world attempt with
    | response status =>
      by_cases h503 : status = 503
      · subst h503
        rw [fetch_step_503 world r attempt h]
        have hrec := ih (attempt + 1)
        simp only []
        omega
      · cases hok : isOkStatus status
        · rw [fetch_step_response_err world (Nat.succ r) attempt status h h503 hok]
          simp
        · rw [fetch_step_response_ok world (Nat.succ r) attempt status h h503 hok]
          simp
    | networkError isFetch =>
      cases isFetch
      · rw [fetch_step_net_false world (Nat.succ r) attempt h]
        simp
      · rw [fetch_step_net_true world r attempt h]
        have hrec := ih (attempt + 1)
        simp only []
        omega

/-- Counterexample for C1: a request that fails with 503 on the first
attempt is re-attempted rather than surfaced: the client performs a second
fetch and returns its result, so the attempt count is 2, not 1. -/
theorem C1_counterexample :
    fetchWithRetry world503then200 MAX_RETRIES 0 = (FetchResult.success 200, 2) ∧
    ¬ (fetchWithRetry world503then200 MAX_RETRIES 0).2 ≤ 1 := by
  have h0 : world503then200 0 = FetchOutcome.response 503 := rfl
  have h1 : world503then200 1 = FetchOutcome.response 200 := rfl
  have hstep : fetchWithRetry world503then200 MAX_RETRIES 0 =
      ((fetchWithRetry world503then200 11 1).1,
       (fetchWithRetry world503then200 11 1).2 + 1) :=
    fetch_step_503 world503then200 11 0 h0
  have hs : fetchWithRetry world503then200 11 1 = (FetchResult.success 200, 1) :=
    fetch_step_response_ok world503then200 11 1 200 h1 (by decide) (by decide)
  rw [hstep, hs]
  exact ⟨rfl, by decide⟩

/-- Amended C1: the API client re-attempts a request only on a 503 response
or a fetch TypeError network failure, and only while retry budget remains;
every other HTTP error or failure is surfaced immediately after a single
attempt. -/
theorem C1_amended_retry_conditions :
    ∀ (world : ℕ → FetchOutcome) (retries attempt : ℕ),
      (∀ status : ℕ, world attempt = FetchOutcome.response status → status ≠ 503 →
        (fetchWithRetry world retries attempt).2 = 1) ∧
      (world attempt = FetchOutcome.networkError false →
        fetchWithRetry world retries attempt = (FetchResult.networkFailure false, 1)) ∧
      (1 < (fetchWithRetry world retries attempt).2 →
        ((world attempt = FetchOutcome.response 503 ∨
          world attempt = FetchOutcome.networkError true) ∧ 0 < retries)) := by
  intro world retries attempt
  refine ⟨?_, ?_, ?_⟩
  · intro status h h503
    cases hok : isOkStatus status
    · rw [fetch_step_response_err world retries attempt status h h503 hok]
    · rw [fetch_step_response_ok world retries attempt status h h503 hok]
  · intro h
    exact fetch_step_net_false world retries attempt h
  · intro hgt
    cases h : world attempt with
    | response status =>
      by_cases h503 : status = 503
      · subst h503
        refine ⟨Or.inl rfl, ?_⟩
        cases retries with
        | zero =>
          rw [fetch_step_503_zero world attempt h] at hgt
          simp at hgt
        | succ r => exact Nat.succ_pos r
      · cases hok : isOkStatus status
        · rw [fetch_step_response_err world retries attempt status h h503 hok] at hgt
          simp at hgt
        · rw [fetch_step_response_ok world retries attempt status h h503 hok] at hgt
          simp at hgt
    | networkError isFetch =>
      cases isFetch
      · rw [fetch_step_net_false world retries attempt h] at hgt
        simp at hgt
      · refine ⟨Or.inr rfl, ?_⟩
        cases retries with
        | zero =>
          rw [fetch_step_net_zero world attempt true h] at hgt
          simp at hgt
        | succ r => exact Nat.succ_pos r

/-- Witness for the amended C1: a 404 response is surfaced after exactly one
attempt even with the full retry budget. -/
theorem C1_amended_witness :
    (fetchWithRetry world404 MAX_RETRIES 0).2 = 1 :=
  (C1_amended_retry_conditions world404 MAX_RETRIES 0).1 404 rfl (by decide)

/-- Counterexample for C6: on two states with equal average risk listed out
of alphabetical order, the component keeps the input order, while the
claimed ranking with a name tie-break would swap them. -/
theorem C6_counterexample :
    topRiskStates [summaryB, summaryA] = [summaryB, summaryA] ∧
    claimedTopRiskStates [summaryB, summaryA] = [summaryA, summaryB] ∧
    topRiskStates [summaryB, summaryA] ≠ claimedTopRiskStates [summaryB, summaryA] := by
  decide

/-- Amended C6: the top-risk list is produced by a stable descending sort on
the risk score in which tied entries keep their input order (no name
tie-break), and the list has at most ten entries. -/
theorem C6_amended_ranking :
    ∀ l : List StateRiskSummary,
      (topRiskStates l).length ≤ 10 ∧
      (sortByAvgRiskDesc l).Perm l ∧
      List.Sorted scoreGe (sortByAvgRiskDesc l) ∧
      (∀ a b : StateRiskSummary, scoreGe a b → List.Sublist [a, b] l →
        List.Sublist [a, b] (sortByAvgRiskDesc l)) ∧
      topRiskStates l = (sortByAvgRiskDesc l).take 10 := by
  intro l
  refine ⟨?_, List.perm_insertionSort scoreGe l,
    List.sorted_insertionSort scoreGe l, ?_, rfl⟩
  · rw [topRiskStates, List.length_take]
    exact min_le_left _ _
  · intro a b hab hsub
    exact List.pair_sublist_insertionSort hab hsub

/-- Witness for the amended C6 on a concrete two-state list with a tie. -/
theorem C6_amended_witness :
    List.Sublist [summaryB, summaryA] (sortByAvgRiskDesc [summaryB, summaryA]) ∧
    (topRiskStates [summaryB, summaryA]).length ≤ 10 :=
  ⟨(C6_amended_ranking [summaryB, summaryA]).2.2.2.1 summaryB summaryA (by decide)
      (List.Sublist.refl _),
   (C6_amended_ranking [summaryB, summaryA]).1⟩
